import Mathlib

/-!
Verification of `pyRfactor2SharedMemory` (rF2MMap.py): versioned shared-memory
buffer access, the adaptive sync loop, and player identity resolution.

The embedding follows the source `src/rF2MMap.py`:
  * `Buf` models one versioned shared-memory struct (rF2Type.py declares the
    leading `mVersionUpdateBegin` / `mVersionUpdateEnd` fields on every buffer);
    the remaining bytes are modelled as an opaque `payload`.
  * `buffer_copy` models `MMapControl.__buffer_copy` (copy-mode refresh with
    version gating); `buffer_share` models `MMapControl.__buffer_share`.
  * `mmap_create` models `MMapControl.create`, `create_mmap` / `update_mmap`
    model `MMapDataSet.create_mmap` / `MMapDataSet.update_mmap`.
  * Machine reads of the mmap region are modelled by passing the region's
    current bytes (a `Buf`) as an explicit argument.
-/

/-- One versioned shared-memory buffer: the two leading version counters
(declared on every buffer struct in rF2Type.py) plus the remaining bytes. -/
structure Buf where
  mVersionUpdateBegin : Nat
  mVersionUpdateEnd : Nat
  payload : List Nat
deriving DecidableEq

/-- `MMapControl.__buffer_copy`: read the region bytes into a candidate
(`temp = from_buffer_copy`), adopt it when
`temp.mVersionUpdateEnd == temp.mVersionUpdateBegin or skip_check`,
otherwise keep the previous `self.data`. -/
def buffer_copy (skip_check : Bool) (region : Buf) (data : Option Buf) : Option Buf :=
  if region.mVersionUpdateEnd = region.mVersionUpdateBegin ∨ skip_check = true then
    some region
  else
    data

/-- Access mode of an `MMapControl`: `access_mode = 0` is copy access,
nonzero is direct access (`MMapControl.create`). -/
inductive AccessMode where
  | copy : AccessMode
  | direct : AccessMode
deriving DecidableEq

/-- State of one `MMapControl` after `create`: the chosen update method,
the `_buffer_sharing` flag and the accessible `data`. -/
structure MMapState where
  mode : AccessMode
  buffer_sharing : Bool
  data : Option Buf
deriving DecidableEq

/-- `MMapControl.__buffer_share`: on first call set `_buffer_sharing` and
alias `data` onto the region; afterwards do nothing. -/
def buffer_share (st : MMapState) (region : Buf) : MMapState :=
  if st.buffer_sharing then st
  else { st with buffer_sharing := true, data := some region }

/-- `MMapControl.create`: pick the update method from `access_mode`
(`if access_mode:` — nonzero means direct) and run one initial
`self.update(True)`; in copy mode that initial copy skips the version check. -/
def mmap_create (access_mode : Nat) (region : Buf) : MMapState :=
  if access_mode ≠ 0 then
    buffer_share { mode := .direct, buffer_sharing := false, data := none } region
  else
    { mode := .copy, buffer_sharing := false,
      data := buffer_copy true region none }

/-- `MMapControl.update` dispatch: copy mode runs `__buffer_copy` (without
`skip_check`), direct mode runs `__buffer_share`. -/
def mmap_update (st : MMapState) (region : Buf) : MMapState :=
  match st.mode with
  | .copy => { st with data := buffer_copy false region st.data }
  | .direct => buffer_share st region

/-- State of `MMapDataSet`: four buffer accessors. -/
structure DataSetState where
  scor : MMapState
  tele : MMapState
  ext : MMapState
  ffb : MMapState
deriving DecidableEq

/-- `MMapDataSet.create_mmap`: scoring and telemetry use the caller's
`access_mode`; extended and force feedback are created with mode `1`. -/
def create_mmap (access_mode : Nat)
    (rScor rTele rExt rFfb : Buf) : DataSetState :=
  { scor := mmap_create access_mode rScor
    tele := mmap_create access_mode rTele
    ext := mmap_create 1 rExt
    ffb := mmap_create 1 rFfb }

/-- `MMapDataSet.update_mmap`: `self.scor.update()` and `self.tele.update()`;
the `ext` and `ffb` update calls are commented out in the source. -/
def update_mmap (ds : DataSetState) (rScor rTele : Buf) : DataSetState :=
  { ds with
    scor := mmap_update ds.scor rScor
    tele := mmap_update ds.tele rTele }

/-!
Player identity resolution (`local_scoring_index`, `SyncData.__sync_player_data`,
`SyncData.__update_tele_indexes`, `SyncData.sync_tele_index`).
Python list / ctypes-array indexing, with its negative-index wraparound and
`IndexError` on out-of-range access, is modelled by `pyGet`.
-/

/-- `INVALID_INDEX` constant from rF2MMap.py. -/
def INVALID_INDEX : Int := -1

/-- One entry of the scoring `mVehicles` array (rF2VehicleScoring): the
fields used by rF2MMap.py. -/
structure VehScoring where
  mID : Int
  mIsPlayer : Bool
deriving DecidableEq

/-- One entry of the telemetry `mVehicles` array (rF2VehicleTelemetry): the
field used by rF2MMap.py. -/
structure VehTelemetry where
  mID : Int
deriving DecidableEq

/-- The scoring buffer (rF2Scoring): version counters and vehicle array. -/
structure ScoringData where
  mVersionUpdateBegin : Nat
  mVersionUpdateEnd : Nat
  mVehicles : List VehScoring
deriving DecidableEq

/-- The telemetry buffer (rF2Telemetry): version counters, vehicle count and
vehicle array. -/
structure TelemetryData where
  mVersionUpdateBegin : Nat
  mVersionUpdateEnd : Nat
  mNumVehicles : Nat
  mVehicles : List VehTelemetry
deriving DecidableEq

/-- Python sequence indexing `xs[i]`: a negative index counts from the end;
an out-of-range access raises `IndexError`, modelled as `none`. -/
def pyGet (xs : List α) (i : Int) : Option α :=
  if 0 ≤ i then xs[i.toNat]?
  else if 0 ≤ (xs.length : Int) + i then xs[((xs.length : Int) + i).toNat]?
  else none

/-- Index of the first entry whose `mIsPlayer` flag is set, if any
(the `enumerate` scan inside `local_scoring_index`). -/
def first_player_index : List VehScoring → Option Nat
  | [] => none
  | v :: rest =>
    if v.mIsPlayer then some 0
    else (first_player_index rest).map (· + 1)

/-- `local_scoring_index`: scan the scoring `mVehicles` array in order and
return the first index whose `mIsPlayer` is truthy, else `INVALID_INDEX`. -/
def local_scoring_index (scor_veh : List VehScoring) : Int :=
  match first_player_index scor_veh with
  | some i => (i : Int)
  | none => INVALID_INDEX

/-- The `_tele_indexes` dictionary, a map from telemetry `mID` to telemetry
array index. `SyncData.__init__` seeds it with
`{_index: _index for _index in range(128)}`. -/
def init_tele_indexes : Int → Option Nat :=
  fun id => if 0 ≤ id ∧ id < 128 then some id.toNat else none

/-- `SyncData.__update_tele_indexes`: for
`zip(range(tele_data.mNumVehicles), tele_data.mVehicles)` store
`tele_indexes[veh_info.mID] = tele_idx`, overwriting prior entries. -/
def update_tele_indexes (tele_data : TelemetryData)
    (tele_indexes : Int → Option Nat) : Int → Option Nat :=
  ((List.range tele_data.mNumVehicles).zip tele_data.mVehicles).foldl
    (fun acc p => fun id => if id = p.2.mID then some p.1 else acc id)
    tele_indexes

/-- The `mID`s recorded by one `__update_tele_indexes` pass over a telemetry
frame (the first `mNumVehicles` entries, truncated like Python `zip`). -/
def observed_ids (tele_data : TelemetryData) : List Int :=
  (((List.range tele_data.mNumVehicles).zip tele_data.mVehicles).map
    (fun p => p.2.mID))

/-- `SyncData.sync_tele_index`: look up the scoring entry's `mID` in
`_tele_indexes` with default `INVALID_INDEX`; the scoring-array access
itself may raise (`none`). -/
def sync_tele_index (scorVehs : List VehScoring)
    (tele_indexes : Int → Option Nat) (scor_idx : Int) : Option Int :=
  (pyGet scorVehs scor_idx).map fun veh =>
    match tele_indexes veh.mID with
    | some i => (i : Int)
    | none => INVALID_INDEX

/-- Player identity state of `SyncData`: override flag, player scoring index
and the stored player scoring / telemetry entries. -/
structure PlayerState where
  override_player_index : Bool
  player_scor_index : Int
  player_scor : Option VehScoring
  player_tele : Option VehTelemetry
deriving DecidableEq

/-- The tail of `__sync_player_data` after the index is settled: set
`player_scor` and `player_tele` from the arrays and return `True`;
an out-of-range array access raises (`none`). -/
def set_player_data (scor : ScoringData) (tele : TelemetryData)
    (tele_indexes : Int → Option Nat) (st : PlayerState) :
    Option (Bool × PlayerState) :=
  (pyGet scor.mVehicles st.player_scor_index).bind fun pscor =>
    (sync_tele_index scor.mVehicles tele_indexes st.player_scor_index).bind fun tidx =>
      (pyGet tele.mVehicles tidx).map fun ptele =>
        (true, { st with player_scor := some pscor, player_tele := some ptele })

/-- `SyncData.__sync_player_data`: with override disabled, rescan the scoring
array and return `False` (state unchanged) when no player slot is found;
otherwise (or with override enabled) set the player data. -/
def sync_player_data (scor : ScoringData) (tele : TelemetryData)
    (tele_indexes : Int → Option Nat) (st : PlayerState) :
    Option (Bool × PlayerState) :=
  if st.override_player_index then
    set_player_data scor tele tele_indexes st
  else
    let scor_idx := local_scoring_index scor.mVehicles
    if scor_idx = INVALID_INDEX then some (false, st)
    else set_player_data scor tele tele_indexes
      { st with player_scor_index := scor_idx }

/-- `RF2SM.rf2TeleVeh` with an explicit index:
`self._tele.data.mVehicles[self._sync.sync_tele_index(index)]`. -/
def rf2TeleVeh (teleVehs : List VehTelemetry) (scorVehs : List VehScoring)
    (tele_indexes : Int → Option Nat) (index : Int) : Option VehTelemetry :=
  (sync_tele_index scorVehs tele_indexes index).bind fun tidx =>
    pyGet teleVehs tidx

/-!
The adaptive sync loop (`SyncData.__update`). One iteration of the
`while not self._event.wait(update_delay)` body is `update_tick`, taking the
post-refresh scoring and telemetry buffers and the two `monotonic()` readings
of that iteration (`nowv` at the version-change check, `nowc` at the freeze
check) as inputs. The `_tele_indexes` dictionary is threaded separately so
that the loop state stays decidably comparable.
-/

/-- Mutable state of one `__update` iteration: the loop locals
(`freezed_version`, `last_version_update`, `last_update_time`,
`data_freezed`, `reset_counter`, `update_delay`) together with the
`SyncData` fields it writes (`paused` and the player identity state). -/
structure LoopState where
  paused : Bool
  freezed_version : Nat
  last_version_update : Nat
  last_update_time : ℚ
  data_freezed : Bool
  reset_counter : Nat
  update_delay : ℚ
  player : PlayerState
deriving DecidableEq

/-- Loop state at entry of `__update`'s while loop: `paused = False`,
`freezed_version = 0`, `last_version_update = 0`, `last_update_time = 0.0`,
`data_freezed = True`, `reset_counter = 0`, `update_delay = 0.5`, with the
given player identity state. -/
def init_loop_state (p : PlayerState) : LoopState :=
  { paused := false
    freezed_version := 0
    last_version_update := 0
    last_update_time := 0
    data_freezed := true
    reset_counter := 0
    update_delay := 1/2
    player := p }

/-- Version bookkeeping and freeze-state logic at the end of one `__update`
iteration (lines after the player sync block), applied to the `paused`,
`reset_counter` and player values produced by that block. -/
def tick_rest (scor : ScoringData) (nowv nowc : ℚ) (s : LoopState)
    (paused1 : Bool) (rc1 : Nat) (p1 : PlayerState) : LoopState :=
  let version_update := scor.mVersionUpdateEnd
  let lvu := if s.last_version_update ≠ version_update then version_update
             else s.last_version_update
  let lut := if s.last_version_update ≠ version_update then nowv
             else s.last_update_time
  if s.data_freezed then
    if s.freezed_version ≠ lvu then
      { paused := false, freezed_version := s.freezed_version,
        last_version_update := lvu, last_update_time := lut,
        data_freezed := false, reset_counter := rc1,
        update_delay := 1/100, player := p1 }
    else
      { paused := paused1, freezed_version := s.freezed_version,
        last_version_update := lvu, last_update_time := lut,
        data_freezed := true, reset_counter := rc1,
        update_delay := s.update_delay, player := p1 }
  else if nowc - lut > 2 then
    { paused := true, freezed_version := lvu,
      last_version_update := lvu, last_update_time := lut,
      data_freezed := true, reset_counter := rc1,
      update_delay := 1/2, player := p1 }
  else
    { paused := paused1, freezed_version := s.freezed_version,
      last_version_update := lvu, last_update_time := lut,
      data_freezed := false, reset_counter := rc1,
      update_delay := s.update_delay, player := p1 }

/-- One iteration of `SyncData.__update`: refresh of the buffers is modelled
by the `scor` / `tele` inputs, `__update_tele_indexes` runs on `tele`, then
(when not frozen) `__sync_player_data` with the pause counter logic, then
`tick_rest`. A Python exception inside the sync is `none`. -/
def update_tick (scor : ScoringData) (tele : TelemetryData)
    (tele_indexes : Int → Option Nat) (nowv nowc : ℚ) (s : LoopState) :
    Option LoopState :=
  let ti2 := update_tele_indexes tele tele_indexes
  if s.data_freezed then
    some (tick_rest scor nowv nowc s s.paused s.reset_counter s.player)
  else
    (sync_player_data scor tele ti2 s.player).map fun r =>
      if r.1 then
        tick_rest scor nowv nowc s false 0 r.2
      else if s.reset_counter < 6 then
        tick_rest scor nowv nowc s
          (if s.reset_counter + 1 = 5 then true else s.paused)
          (s.reset_counter + 1) r.2
      else
        tick_rest scor nowv nowc s s.paused s.reset_counter r.2

/-!
Theorems. Claim theorems are named `claim_*`; supporting lemmas come first.
-/

/-- C1: in Copy mode, `refresh()` adopts a candidate snapshot exactly when the
candidate's `mVersionUpdateEnd` equals its `mVersionUpdateBegin`; an
inconsistent candidate is discarded and the stored snapshot stays
byte-identical; the version check is skipped only for the unconditional
initial copy made with `skip_check = True` at `create()`. -/
theorem claim_copy_version_gate (cand : Buf) (cur : Option Buf) :
    (cand.mVersionUpdateEnd = cand.mVersionUpdateBegin →
      buffer_copy false cand cur = some cand) ∧
    (cand.mVersionUpdateEnd ≠ cand.mVersionUpdateBegin →
      buffer_copy false cand cur = cur) ∧
    buffer_copy true cand cur = some cand := by
  refine ⟨fun h => ?_, fun h => ?_, by simp [buffer_copy]⟩ <;>
    simp [buffer_copy, h]

/-- C1 witness: a consistent candidate is adopted, an inconsistent one is
discarded keeping the previous snapshot, and the initial copy is
unconditional. -/
theorem claim_copy_version_gate_witness :
    buffer_copy false ⟨4, 4, [42]⟩ (some ⟨1, 1, [7]⟩) = some ⟨4, 4, [42]⟩ ∧
    buffer_copy false ⟨4, 5, [42]⟩ (some ⟨1, 1, [7]⟩) = some ⟨1, 1, [7]⟩ ∧
    buffer_copy true ⟨4, 5, [42]⟩ (some ⟨1, 1, [7]⟩) = some ⟨4, 5, [42]⟩ :=
  ⟨(claim_copy_version_gate ⟨4, 4, [42]⟩ (some ⟨1, 1, [7]⟩)).1 rfl,
   (claim_copy_version_gate ⟨4, 5, [42]⟩ (some ⟨1, 1, [7]⟩)).2.1 (by decide),
   (claim_copy_version_gate ⟨4, 5, [42]⟩ (some ⟨1, 1, [7]⟩)).2.2⟩

/-- C7: `create_mmap` opens scoring and telemetry in the caller-selected mode
(`access_mode` nonzero means Direct, zero means Copy) while extended and
force feedback are always opened in Direct mode. -/
theorem claim_create_modes (access_mode : Nat) (rScor rTele rExt rFfb : Buf) :
    (create_mmap access_mode rScor rTele rExt rFfb).scor.mode =
      (if access_mode ≠ 0 then AccessMode.direct else AccessMode.copy) ∧
    (create_mmap access_mode rScor rTele rExt rFfb).tele.mode =
      (if access_mode ≠ 0 then AccessMode.direct else AccessMode.copy) ∧
    (create_mmap access_mode rScor rTele rExt rFfb).ext.mode = AccessMode.direct ∧
    (create_mmap access_mode rScor rTele rExt rFfb).ffb.mode = AccessMode.direct := by
  by_cases h : access_mode = 0 <;>
    simp [create_mmap, mmap_create, buffer_share, h]

/-- C8: `update_mmap` refreshes exactly the scoring and telemetry accessors;
the extended and force-feedback accessor states are left unchanged. -/
theorem claim_update_targets (ds : DataSetState) (rScor rTele : Buf) :
    (update_mmap ds rScor rTele).scor = mmap_update ds.scor rScor ∧
    (update_mmap ds rScor rTele).tele = mmap_update ds.tele rTele ∧
    (update_mmap ds rScor rTele).ext = ds.ext ∧
    (update_mmap ds rScor rTele).ffb = ds.ffb := by
  simp [update_mmap]

/-- If no entry has the player flag, the scan finds nothing. -/
theorem first_player_index_of_no_player (l : List VehScoring)
    (h : ∀ v ∈ l, v.mIsPlayer = false) : first_player_index l = none := by
  induction l with
  | nil => rfl
  | cons x rest ih =>
    simp only [first_player_index, h x (List.mem_cons_self x rest), if_false,
      Bool.false_eq_true]
    rw [ih fun v hv => h v (List.mem_cons_of_mem x hv)]
    rfl

/-- The scan returns the first flagged index. -/
theorem first_player_index_eq_first (l : List VehScoring) (i : Nat)
    (v : VehScoring) (hget : l[i]? = some v) (hv : v.mIsPlayer = true)
    (hmin : ∀ j w, j < i → l[j]? = some w → w.mIsPlayer = false) :
    first_player_index l = some i := by
  induction l generalizing i with
  | nil => simp at hget
  | cons x rest ih =>
    cases i with
    | zero =>
      rw [List.getElem?_cons_zero] at hget
      have hx : x = v := by injection hget
      subst hx
      simp [first_player_index, hv]
    | succ i =>
      have hx : x.mIsPlayer = false :=
        hmin 0 x (Nat.succ_pos i) List.getElem?_cons_zero
      have hrest : first_player_index rest = some i := by
        refine ih i ?_ fun j w hj hw => ?_
        · rw [List.getElem?_cons_succ] at hget; exact hget
        · exact hmin (j + 1) w (by omega) (by rw [List.getElem?_cons_succ]; exact hw)
      simp [first_player_index, hx, hrest]

/-- Python indexing at a nonnegative index is plain list indexing. -/
theorem pyGet_ofNat (xs : List α) (i : Nat) : pyGet xs (i : Int) = xs[i]? := by
  simp [pyGet]

/-- Anatomy of a successful `set_player_data`: it reports success and only
replaces the stored player entries by the indexed array entries. -/
theorem set_player_data_eq_some (scor : ScoringData) (tele : TelemetryData)
    (ti : Int → Option Nat) (st : PlayerState) (b : Bool) (st1 : PlayerState)
    (h : set_player_data scor tele ti st = some (b, st1)) :
    b = true ∧
    st1.override_player_index = st.override_player_index ∧
    st1.player_scor_index = st.player_scor_index ∧
    st1.player_scor = pyGet scor.mVehicles st.player_scor_index ∧
    st1.player_tele = (sync_tele_index scor.mVehicles ti st.player_scor_index).bind
      (fun tidx => pyGet tele.mVehicles tidx) := by
  rw [set_player_data] at h
  rw [Option.bind_eq_some] at h
  obtain ⟨pscor, h1, h⟩ := h
  rw [Option.bind_eq_some] at h
  obtain ⟨tidx, h2, h⟩ := h
  rw [Option.map_eq_some'] at h
  obtain ⟨ptele, h3, h⟩ := h
  obtain ⟨hb, hst⟩ := Prod.mk.injEq .. ▸ h
  subst hb
  subst hst
  simp [h1, h2, h3]

/-- C4: with the player-index override disabled, `__sync_player_data` resolves
the player slot by a linear scan of the scoring array: it settles on the
first slot whose `mIsPlayer` flag is set (lowest index wins), and it returns
`False` when no slot has the flag set. -/
theorem claim_sync_scan_first (scor : ScoringData) (tele : TelemetryData)
    (ti : Int → Option Nat) (st : PlayerState)
    (hov : st.override_player_index = false) :
    (∀ (i : Nat) (v : VehScoring), scor.mVehicles[i]? = some v → v.mIsPlayer = true →
      (∀ (j : Nat) (w : VehScoring), j < i → scor.mVehicles[j]? = some w → w.mIsPlayer = false) →
      local_scoring_index scor.mVehicles = (i : Int) ∧
      ∀ b st1, sync_player_data scor tele ti st = some (b, st1) →
        b = true ∧ st1.player_scor_index = (i : Int) ∧ st1.player_scor = some v) ∧
    ((∀ v ∈ scor.mVehicles, v.mIsPlayer = false) →
      local_scoring_index scor.mVehicles = INVALID_INDEX ∧
      sync_player_data scor tele ti st = some (false, st)) := by
  constructor
  · intro i v hget hv hmin
    have hloc : local_scoring_index scor.mVehicles = (i : Int) := by
      rw [local_scoring_index, first_player_index_eq_first _ i v hget hv hmin]
    have hne : ((i : Int) = INVALID_INDEX) = False := by
      simp only [INVALID_INDEX, eq_iff_iff, iff_false]
      omega
    refine ⟨hloc, fun b st1 hsync => ?_⟩
    rw [sync_player_data, hov] at hsync
    simp only [Bool.false_eq_true, if_false, hloc, hne] at hsync
    obtain ⟨hb, _, hidx, hscor, _⟩ :=
      set_player_data_eq_some _ _ _ _ _ _ hsync
    refine ⟨hb, ?_, ?_⟩
    · rw [hidx]
    · rw [hscor]
      show pyGet scor.mVehicles (i : Int) = some v
      rw [pyGet_ofNat]
      exact hget
  · intro hall
    have hloc : local_scoring_index scor.mVehicles = INVALID_INDEX := by
      rw [local_scoring_index, first_player_index_of_no_player _ hall]
    refine ⟨hloc, ?_⟩
    rw [sync_player_data, hov]
    simp [hloc]

/-- C4 witness: in the array `[id 5 unflagged, id 9 flagged, id 2 flagged]`
the scan settles on index 1, and a flag-free array yields a `False` sync
that keeps the state. -/
theorem claim_sync_scan_first_witness :
    (local_scoring_index [⟨5, false⟩, ⟨9, true⟩, ⟨2, true⟩] = (1 : Int) ∧
      ∀ b st1,
        sync_player_data ⟨0, 0, [⟨5, false⟩, ⟨9, true⟩, ⟨2, true⟩]⟩
          ⟨0, 0, 3, [⟨2⟩, ⟨5⟩, ⟨9⟩]⟩
          (update_tele_indexes ⟨0, 0, 3, [⟨2⟩, ⟨5⟩, ⟨9⟩]⟩ init_tele_indexes)
          ⟨false, -1, none, none⟩ = some (b, st1) →
        b = true ∧ st1.player_scor_index = (1 : Int) ∧
          st1.player_scor = some ⟨9, true⟩) ∧
    (local_scoring_index [⟨5, false⟩, ⟨2, false⟩] = INVALID_INDEX ∧
      sync_player_data ⟨0, 0, [⟨5, false⟩, ⟨2, false⟩]⟩ ⟨0, 0, 3, [⟨2⟩, ⟨5⟩, ⟨9⟩]⟩
        init_tele_indexes ⟨false, -1, none, none⟩ =
        some (false, ⟨false, -1, none, none⟩)) :=
  ⟨(claim_sync_scan_first ⟨0, 0, [⟨5, false⟩, ⟨9, true⟩, ⟨2, true⟩]⟩
      ⟨0, 0, 3, [⟨2⟩, ⟨5⟩, ⟨9⟩]⟩
      (update_tele_indexes ⟨0, 0, 3, [⟨2⟩, ⟨5⟩, ⟨9⟩]⟩ init_tele_indexes)
      ⟨false, -1, none, none⟩ rfl).1 1 ⟨9, true⟩ rfl rfl
      (by
        intro j w hj hw
        have hj0 : j = 0 := by omega
        subst hj0
        rw [List.getElem?_cons_zero] at hw
        injection hw with h
        rw [← h]),
   (claim_sync_scan_first ⟨0, 0, [⟨5, false⟩, ⟨2, false⟩]⟩ ⟨0, 0, 3, [⟨2⟩, ⟨5⟩, ⟨9⟩]⟩
      init_tele_indexes ⟨false, -1, none, none⟩ rfl).2 (by decide)⟩

/-- C5: with the player-index override enabled, `__sync_player_data` performs
no player-flag scan: it keeps the manually set `player_scor_index`, stores
that slot's scoring and telemetry entries (no condition on the slot's
`mIsPlayer` flag), and every returned result reports success. -/
theorem claim_sync_override (scor : ScoringData) (tele : TelemetryData)
    (ti : Int → Option Nat) (st : PlayerState) (b : Bool) (st1 : PlayerState)
    (hov : st.override_player_index = true)
    (hsync : sync_player_data scor tele ti st = some (b, st1)) :
    b = true ∧
    st1.player_scor_index = st.player_scor_index ∧
    st1.override_player_index = true ∧
    st1.player_scor = pyGet scor.mVehicles st.player_scor_index ∧
    st1.player_tele = (sync_tele_index scor.mVehicles ti st.player_scor_index).bind
      (fun tidx => pyGet tele.mVehicles tidx) := by
  rw [sync_player_data, hov] at hsync
  simp only [if_true] at hsync
  obtain ⟨hb, hov1, hidx, hscor, htele⟩ :=
    set_player_data_eq_some _ _ _ _ _ _ hsync
  exact ⟨hb, hidx, by rw [hov1, hov], hscor, htele⟩

/-- C5 witness: with override enabled and index 0, the sync succeeds and
stores slot 0's entries although slot 0's player flag is false. -/
theorem claim_sync_override_witness :
    (sync_player_data ⟨0, 0, [⟨7, false⟩]⟩ ⟨0, 0, 1, [⟨7⟩]⟩
        (update_tele_indexes ⟨0, 0, 1, [⟨7⟩]⟩ init_tele_indexes)
        ⟨true, 0, none, none⟩ =
      some (true, ⟨true, 0, some ⟨7, false⟩, some ⟨7⟩⟩)) ∧
    (true = true ∧
      (⟨true, 0, some ⟨7, false⟩, some ⟨7⟩⟩ : PlayerState).player_scor_index =
        (⟨true, 0, none, none⟩ : PlayerState).player_scor_index ∧
      (⟨true, 0, some ⟨7, false⟩, some ⟨7⟩⟩ : PlayerState).override_player_index = true ∧
      (⟨true, 0, some ⟨7, false⟩, some ⟨7⟩⟩ : PlayerState).player_scor =
        pyGet [⟨7, false⟩] (0 : Int) ∧
      (⟨true, 0, some ⟨7, false⟩, some ⟨7⟩⟩ : PlayerState).player_tele =
        (sync_tele_index [⟨7, false⟩]
            (update_tele_indexes ⟨0, 0, 1, [⟨7⟩]⟩ init_tele_indexes) (0 : Int)).bind
          (fun tidx => pyGet [(⟨7⟩ : VehTelemetry)] tidx)) :=
  ⟨by decide,
   claim_sync_override ⟨0, 0, [⟨7, false⟩]⟩ ⟨0, 0, 1, [⟨7⟩]⟩
     (update_tele_indexes ⟨0, 0, 1, [⟨7⟩]⟩ init_tele_indexes)
     ⟨true, 0, none, none⟩ true ⟨true, 0, some ⟨7, false⟩, some ⟨7⟩⟩ rfl (by decide)⟩

/-- `tick_rest` never touches the player state it is handed. -/
theorem tick_rest_player (scor : ScoringData) (nowv nowc : ℚ) (s : LoopState)
    (paused1 : Bool) (rc1 : Nat) (p1 : PlayerState) :
    (tick_rest scor nowv nowc s paused1 rc1 p1).player = p1 := by
  rw [tick_rest]
  repeat' split
  all_goals rfl

/-- A failed scan with override disabled keeps the whole player state. -/
theorem sync_player_data_of_no_player (scor : ScoringData) (tele : TelemetryData)
    (ti : Int → Option Nat) (st : PlayerState)
    (hov : st.override_player_index = false)
    (hall : ∀ v ∈ scor.mVehicles, v.mIsPlayer = false) :
    sync_player_data scor tele ti st = some (false, st) := by
  rw [sync_player_data, hov]
  have hloc : local_scoring_index scor.mVehicles = INVALID_INDEX := by
    rw [local_scoring_index, first_player_index_of_no_player _ hall]
  simp [hloc]

/-- C6: when the scan finds no flagged slot and the override is disabled,
`__sync_player_data` returns `False` with the player identity state intact
(index, scoring entry and telemetry entry keep their last values), and a
whole `__update` iteration in that situation also leaves the player state
untouched. -/
theorem claim_sync_failure_preserves (scor : ScoringData) (tele : TelemetryData)
    (ti : Int → Option Nat) (st : PlayerState)
    (hov : st.override_player_index = false)
    (hall : ∀ v ∈ scor.mVehicles, v.mIsPlayer = false) :
    sync_player_data scor tele ti st = some (false, st) ∧
    (∀ (s s1 : LoopState) (nowv nowc : ℚ), s.data_freezed = false →
      s.player = st →
      update_tick scor tele ti nowv nowc s = some s1 → s1.player = st) := by
  refine ⟨sync_player_data_of_no_player scor tele ti st hov hall, ?_⟩
  intro s s1 nowv nowc hF hp hstep
  rw [update_tick, hF] at hstep
  simp only [Bool.false_eq_true, if_false] at hstep
  rw [hp, sync_player_data_of_no_player scor tele
    (update_tele_indexes tele ti) st hov hall] at hstep
  simp only [Option.map_some', Option.some.injEq] at hstep
  rw [← hstep]
  split <;> [skip; split] <;> rw [tick_rest_player]

/-- C6 witness: with no flagged slot, one sync and one full iteration keep
the stored player values. -/
theorem claim_sync_failure_preserves_witness :
    (sync_player_data ⟨0, 3, [⟨5, false⟩, ⟨2, false⟩]⟩ ⟨0, 0, 1, [⟨5⟩]⟩
        init_tele_indexes ⟨false, 1, some ⟨9, true⟩, some ⟨9⟩⟩ =
      some (false, ⟨false, 1, some ⟨9, true⟩, some ⟨9⟩⟩)) ∧
    ({ paused := false, freezed_version := 0, last_version_update := 3,
       last_update_time := 1, data_freezed := false, reset_counter := 0,
       update_delay := 1/100,
       player := ⟨false, 1, some ⟨9, true⟩, some ⟨9⟩⟩ : LoopState}.player =
      (⟨false, 1, some ⟨9, true⟩, some ⟨9⟩⟩ : PlayerState)) :=
  ⟨(claim_sync_failure_preserves ⟨0, 3, [⟨5, false⟩, ⟨2, false⟩]⟩ ⟨0, 0, 1, [⟨5⟩]⟩
      init_tele_indexes ⟨false, 1, some ⟨9, true⟩, some ⟨9⟩⟩ rfl (by decide)).1,
   rfl⟩

/-- Python index `-1` on a nonempty list picks the last element. -/
theorem pyGet_neg_one (xs : List α) (h : xs ≠ []) :
    pyGet xs (-1) = xs[xs.length - 1]? := by
  have hl : 0 < xs.length := List.length_pos.mpr h
  rw [pyGet, if_neg (by omega), if_pos (by omega)]
  congr 1
  omega

/-- A successful Python index means the list is nonempty. -/
theorem pyGet_ne_nil (xs : List α) (i : Int) (v : α)
    (h : pyGet xs i = some v) : xs ≠ [] := by
  intro hnil
  subst hnil
  rw [pyGet] at h
  simp at h

/-- The last element of a nonempty list exists. -/
theorem getElem_last_isSome (xs : List α) (h : xs ≠ []) :
    (xs[xs.length - 1]?).isSome = true := by
  have hl : 0 < xs.length := List.length_pos.mpr h
  rw [List.getElem?_eq_getElem (by omega)]
  rfl

/-- C9: when the telemetry-index lookup misses (the scoring entry's `mID` is
absent from `_tele_indexes`), `sync_tele_index` yields the sentinel
`INVALID_INDEX = -1`, and every consumer that indexes a vehicle array with
it — `rf2TeleVeh`, `__sync_player_data`'s telemetry lookup, and the
`mVehicles[INVALID_INDEX]` fallback in `start()` — silently gets the LAST
array element through Python negative indexing instead of an error. -/
theorem claim_tele_sentinel (scorVehs : List VehScoring)
    (teleVehs : List VehTelemetry) (ti : Int → Option Nat) (idx : Int)
    (v : VehScoring)
    (hscor : pyGet scorVehs idx = some v)
    (hmiss : ti v.mID = none)
    (hne : teleVehs ≠ []) :
    sync_tele_index scorVehs ti idx = some INVALID_INDEX ∧
    pyGet teleVehs INVALID_INDEX = teleVehs[teleVehs.length - 1]? ∧
    (teleVehs[teleVehs.length - 1]?).isSome = true ∧
    rf2TeleVeh teleVehs scorVehs ti idx = teleVehs[teleVehs.length - 1]? ∧
    pyGet scorVehs INVALID_INDEX = scorVehs[scorVehs.length - 1]? ∧
    (∀ (scor : ScoringData) (tele : TelemetryData) (st : PlayerState)
        (b : Bool) (st1 : PlayerState),
      scor.mVehicles = scorVehs → tele.mVehicles = teleVehs →
      st.override_player_index = true → st.player_scor_index = idx →
      sync_player_data scor tele ti st = some (b, st1) →
      st1.player_tele = teleVehs[teleVehs.length - 1]?) := by
  have hsent : sync_tele_index scorVehs ti idx = some INVALID_INDEX := by
    rw [sync_tele_index, hscor, Option.map_some', hmiss]
  have hlast : pyGet teleVehs INVALID_INDEX = teleVehs[teleVehs.length - 1]? :=
    pyGet_neg_one teleVehs hne
  refine ⟨hsent, hlast, getElem_last_isSome teleVehs hne, ?_, ?_, ?_⟩
  · rw [rf2TeleVeh, hsent]
    simpa using hlast
  · exact pyGet_neg_one scorVehs (pyGet_ne_nil scorVehs idx v hscor)
  · intro scor tele st b st1 hsv htv hov hidx hsync
    rw [sync_player_data, hov] at hsync
    simp only [if_true] at hsync
    obtain ⟨_, _, _, _, htele⟩ := set_player_data_eq_some _ _ _ _ _ _ hsync
    rw [htele, hidx, hsv, htv, hsent]
    simpa using hlast

/-- C9 witness: a scoring entry with unseen `mID = 200` yields sentinel `-1`,
and the consumers return the last telemetry entry `⟨4⟩`. -/
theorem claim_tele_sentinel_witness :
    sync_tele_index [⟨200, true⟩] init_tele_indexes 0 = some INVALID_INDEX ∧
    rf2TeleVeh [⟨3⟩, ⟨4⟩] [⟨200, true⟩] init_tele_indexes 0 = some ⟨4⟩ ∧
    pyGet [(⟨3⟩ : VehTelemetry), ⟨4⟩] INVALID_INDEX = some ⟨4⟩ ∧
    (⟨true, 0, some ⟨200, true⟩, some ⟨4⟩⟩ : PlayerState).player_tele = some ⟨4⟩ := by
  have h := claim_tele_sentinel [⟨200, true⟩] [⟨3⟩, ⟨4⟩] init_tele_indexes 0
    ⟨200, true⟩ (by decide) (by decide) (by decide)
  exact ⟨h.1, h.2.2.2.1.trans (by decide), h.2.1.trans (by decide),
    (h.2.2.2.2.2 ⟨0, 0, [⟨200, true⟩]⟩ ⟨0, 0, 2, [⟨3⟩, ⟨4⟩]⟩ ⟨true, 0, none, none⟩
      true ⟨true, 0, some ⟨200, true⟩, some ⟨4⟩⟩ rfl rfl rfl rfl
      (by decide)).trans (by decide)⟩

/-- One `__update_tele_indexes` pass leaves unobserved ids untouched. -/
theorem update_tele_indexes_unobserved (t : TelemetryData) (v : Int)
    (m : Int → Option Nat) (h : v ∉ observed_ids t) :
    update_tele_indexes t m v = m v := by
  rw [update_tele_indexes]
  rw [observed_ids] at h
  generalize (List.range t.mNumVehicles).zip t.mVehicles = l at h
  induction l generalizing m with
  | nil => rfl
  | cons p rest ih =>
    rw [List.map_cons, List.mem_cons, not_or] at h
    rw [List.foldl_cons]
    rw [ih _ h.2]
    simp [h.1]

/-- Any sequence of `__update_tele_indexes` passes leaves ids unobserved in
every frame untouched. -/
theorem foldl_tele_indexes_unobserved (frames : List TelemetryData) (v : Int)
    (m : Int → Option Nat) (h : ∀ t ∈ frames, v ∉ observed_ids t) :
    (frames.foldl (fun acc t => update_tele_indexes t acc) m) v = m v := by
  induction frames generalizing m with
  | nil => rfl
  | cons t rest ih =>
    rw [List.foldl_cons, ih _ fun u hu => h u (List.mem_cons_of_mem t hu)]
    exact update_tele_indexes_unobserved t v m (h t (List.mem_cons_self t rest))

/-- C10: `_tele_indexes` is pre-seeded with the identity on `0..127`, so a
vehicle id in that range that never occurred in any telemetry frame still
resolves to itself (not to the sentinel); only never-observed ids outside
`0..127` make `sync_tele_index` yield `INVALID_INDEX`. -/
theorem claim_tele_index_preseed (frames : List TelemetryData) (v : Int)
    (hun : ∀ t ∈ frames, v ∉ observed_ids t) :
    ((0 ≤ v ∧ v ≤ 127) →
      (frames.foldl (fun acc t => update_tele_indexes t acc) init_tele_indexes) v =
        some v.toNat) ∧
    ((v < 0 ∨ 127 < v) →
      (frames.foldl (fun acc t => update_tele_indexes t acc) init_tele_indexes) v =
        none) ∧
    (∀ (scorVehs : List VehScoring) (idx : Int) (w : VehScoring),
      pyGet scorVehs idx = some w → w.mID = v →
      ((0 ≤ v ∧ v ≤ 127) →
        sync_tele_index scorVehs
          (frames.foldl (fun acc t => update_tele_indexes t acc) init_tele_indexes)
          idx = some v) ∧
      ((v < 0 ∨ 127 < v) →
        sync_tele_index scorVehs
          (frames.foldl (fun acc t => update_tele_indexes t acc) init_tele_indexes)
          idx = some INVALID_INDEX)) := by
  have hfold := foldl_tele_indexes_unobserved frames v init_tele_indexes hun
  have hin : (0 ≤ v ∧ v ≤ 127) →
      (frames.foldl (fun acc t => update_tele_indexes t acc) init_tele_indexes) v =
        some v.toNat := by
    intro hr
    rw [hfold, init_tele_indexes]
    simp only [if_pos (by omega : 0 ≤ v ∧ v < 128)]
  have hout : (v < 0 ∨ 127 < v) →
      (frames.foldl (fun acc t => update_tele_indexes t acc) init_tele_indexes) v =
        none := by
    intro hr
    rw [hfold, init_tele_indexes]
    simp only [if_neg (by omega : ¬(0 ≤ v ∧ v < 128))]
  refine ⟨hin, hout, ?_⟩
  intro scorVehs idx w hget hid
  constructor
  · intro hr
    rw [sync_tele_index, hget, Option.map_some', hid, hin hr]
    show some ((v.toNat : Int)) = some v
    rw [Int.toNat_of_nonneg hr.1]
  · intro hr
    rw [sync_tele_index, hget, Option.map_some', hid, hout hr]

/-- C10 witness: with one frame observing only id 3, the never-observed
in-range id 5 still resolves to 5, while the never-observed id 200
resolves to the sentinel. -/
theorem claim_tele_index_preseed_witness :
    ([(⟨0, 0, 1, [⟨3⟩]⟩ : TelemetryData)].foldl
        (fun acc t => update_tele_indexes t acc) init_tele_indexes) 5 = some 5 ∧
    sync_tele_index [⟨5, true⟩]
      ([(⟨0, 0, 1, [⟨3⟩]⟩ : TelemetryData)].foldl
        (fun acc t => update_tele_indexes t acc) init_tele_indexes) 0 = some 5 ∧
    ([(⟨0, 0, 1, [⟨3⟩]⟩ : TelemetryData)].foldl
        (fun acc t => update_tele_indexes t acc) init_tele_indexes) 200 = none ∧
    sync_tele_index [⟨200, true⟩]
      ([(⟨0, 0, 1, [⟨3⟩]⟩ : TelemetryData)].foldl
        (fun acc t => update_tele_indexes t acc) init_tele_indexes) 0 =
      some INVALID_INDEX := by
  have h5 := claim_tele_index_preseed [⟨0, 0, 1, [⟨3⟩]⟩] 5 (by decide)
  have h200 := claim_tele_index_preseed [⟨0, 0, 1, [⟨3⟩]⟩] 200 (by decide)
  exact ⟨h5.1 (by decide),
    (h5.2.2 [⟨5, true⟩] 0 ⟨5, true⟩ (by decide) rfl).1 (by decide),
    h200.2.1 (by decide),
    (h200.2.2 [⟨200, true⟩] 0 ⟨200, true⟩ (by decide) rfl).2 (by decide)⟩

/-- Active state, stale version, more than 2 s elapsed: the tail of the
iteration freezes, records the version, sets `paused` and widens the delay. -/
theorem tick_rest_freeze (scor : ScoringData) (nowv nowc : ℚ) (s : LoopState)
    (paused1 : Bool) (rc1 : Nat) (p1 : PlayerState)
    (hF : s.data_freezed = false)
    (hv : scor.mVersionUpdateEnd = s.last_version_update)
    (ht : nowc - s.last_update_time > 2) :
    tick_rest scor nowv nowc s paused1 rc1 p1 =
      { paused := true, freezed_version := s.last_version_update,
        last_version_update := s.last_version_update,
        last_update_time := s.last_update_time, data_freezed := true,
        reset_counter := rc1, update_delay := 1/2, player := p1 } := by
  rw [tick_rest]
  simp [hv, hF, ht]

/-- Frozen state with the version still at the frozen snapshot: nothing
changes except the bookkeeping fields. -/
theorem tick_rest_frozen_stay (scor : ScoringData) (nowv nowc : ℚ)
    (s : LoopState) (paused1 : Bool) (rc1 : Nat) (p1 : PlayerState)
    (hT : s.data_freezed = true)
    (hv : scor.mVersionUpdateEnd = s.freezed_version) :
    (tick_rest scor nowv nowc s paused1 rc1 p1).data_freezed = true ∧
    (tick_rest scor nowv nowc s paused1 rc1 p1).paused = paused1 ∧
    (tick_rest scor nowv nowc s paused1 rc1 p1).update_delay = s.update_delay ∧
    (tick_rest scor nowv nowc s paused1 rc1 p1).freezed_version =
      s.freezed_version := by
  rw [tick_rest]
  by_cases hl : s.last_version_update = s.freezed_version <;>
    simp [hv, hT, hl]

/-- Frozen state with the version moved away from the frozen snapshot: the
iteration unfreezes, clears `paused` and narrows the delay. -/
theorem tick_rest_unfreeze (scor : ScoringData) (nowv nowc : ℚ)
    (s : LoopState) (paused1 : Bool) (rc1 : Nat) (p1 : PlayerState)
    (hT : s.data_freezed = true)
    (hv : scor.mVersionUpdateEnd ≠ s.freezed_version) :
    (tick_rest scor nowv nowc s paused1 rc1 p1).data_freezed = false ∧
    (tick_rest scor nowv nowc s paused1 rc1 p1).paused = false ∧
    (tick_rest scor nowv nowc s paused1 rc1 p1).update_delay = 1/100 ∧
    (tick_rest scor nowv nowc s paused1 rc1 p1).freezed_version =
      s.freezed_version := by
  rw [tick_rest]
  by_cases hl : s.last_version_update = scor.mVersionUpdateEnd <;>
    simp [hT, hl, Ne.symm hv]

/-- Active state, version just advanced, no staleness: the tail keeps the
values produced by the player-sync block. -/
theorem tick_rest_active_stay (scor : ScoringData) (nowv nowc : ℚ)
    (s : LoopState) (paused1 : Bool) (rc1 : Nat) (p1 : PlayerState)
    (hF : s.data_freezed = false)
    (hv : s.last_version_update ≠ scor.mVersionUpdateEnd)
    (ht : ¬ nowc - nowv > 2) :
    (tick_rest scor nowv nowc s paused1 rc1 p1).paused = paused1 ∧
    (tick_rest scor nowv nowc s paused1 rc1 p1).reset_counter = rc1 ∧
    (tick_rest scor nowv nowc s paused1 rc1 p1).data_freezed = false ∧
    (tick_rest scor nowv nowc s paused1 rc1 p1).player = p1 := by
  rw [tick_rest]
  simp [hF, hv, ht]

/-- C2: in the `__update` loop, an Active iteration whose scoring
`mVersionUpdateEnd` has not moved for more than 2 seconds freezes: it
records the frozen version, widens the delay to 0.5 s and sets `paused`.
A Frozen iteration keeps all of this unchanged while the observed version
still equals the frozen snapshot (the transition happens exactly once), and
as soon as the observed version differs it unfreezes, narrows the delay to
0.01 s and clears `paused`. -/
theorem claim_freeze_resume (scor : ScoringData) (tele : TelemetryData)
    (ti : Int → Option Nat) (nowv nowc : ℚ) (s s1 : LoopState)
    (hstep : update_tick scor tele ti nowv nowc s = some s1) :
    (s.data_freezed = false → scor.mVersionUpdateEnd = s.last_version_update →
      nowc - s.last_update_time > 2 →
      s1.data_freezed = true ∧ s1.paused = true ∧ s1.update_delay = 1/2 ∧
      s1.freezed_version = s.last_version_update) ∧
    (s.data_freezed = true → scor.mVersionUpdateEnd = s.freezed_version →
      s1.data_freezed = true ∧ s1.paused = s.paused ∧
      s1.update_delay = s.update_delay ∧
      s1.freezed_version = s.freezed_version) ∧
    (s.data_freezed = true → scor.mVersionUpdateEnd ≠ s.freezed_version →
      s1.data_freezed = false ∧ s1.paused = false ∧
      s1.update_delay = 1/100 ∧ s1.freezed_version = s.freezed_version) := by
  refine ⟨fun hF hv ht => ?_, fun hT hv => ?_, fun hT hv => ?_⟩
  · rw [update_tick] at hstep
    simp only [hF, Bool.false_eq_true, if_false, Option.map_eq_some'] at hstep
    obtain ⟨r, _, hf⟩ := hstep
    rw [← hf]
    split
    · rw [tick_rest_freeze scor nowv nowc s _ _ _ hF hv ht]
      exact ⟨rfl, rfl, rfl, rfl⟩
    · split
      · rw [tick_rest_freeze scor nowv nowc s _ _ _ hF hv ht]
        exact ⟨rfl, rfl, rfl, rfl⟩
      · rw [tick_rest_freeze scor nowv nowc s _ _ _ hF hv ht]
        exact ⟨rfl, rfl, rfl, rfl⟩
  · rw [update_tick] at hstep
    simp only [hT, if_true, Option.some.injEq] at hstep
    rw [← hstep]
    exact tick_rest_frozen_stay scor nowv nowc s _ _ _ hT hv
  · rw [update_tick] at hstep
    simp only [hT, if_true, Option.some.injEq] at hstep
    rw [← hstep]
    exact tick_rest_unfreeze scor nowv nowc s _ _ _ hT hv

/-- Player identity used in the concrete loop scenarios below. -/
def wPlayer : PlayerState := ⟨false, 0, none, none⟩

/-- Scoring buffer at version 7 with one flagged vehicle. -/
def wScor7 : ScoringData := ⟨0, 7, [⟨0, true⟩]⟩

/-- Scoring buffer at version 9 with one flagged vehicle. -/
def wScor9 : ScoringData := ⟨0, 9, [⟨0, true⟩]⟩

/-- Telemetry buffer with one vehicle of id 0. -/
def wTele1 : TelemetryData := ⟨0, 0, 1, [⟨0⟩]⟩

/-- An Active loop state that last saw a version change at time 1. -/
def wActive : LoopState :=
  { paused := false, freezed_version := 3, last_version_update := 7,
    last_update_time := 1, data_freezed := false, reset_counter := 0,
    update_delay := 1/100, player := wPlayer }

/-- A Frozen loop state with frozen version 7. -/
def wFrozen : LoopState :=
  { paused := true, freezed_version := 7, last_version_update := 7,
    last_update_time := 1, data_freezed := true, reset_counter := 0,
    update_delay := 1/2, player := wPlayer }

/-- The state after the freezing iteration of `wActive` at time 5. -/
def wAfterFreeze : LoopState :=
  { paused := true, freezed_version := 7, last_version_update := 7,
    last_update_time := 1, data_freezed := true, reset_counter := 0,
    update_delay := 1/2, player := ⟨false, 0, some ⟨0, true⟩, some ⟨0⟩⟩ }

/-- The state after the resuming iteration of `wFrozen` at time 6. -/
def wResumed : LoopState :=
  { paused := false, freezed_version := 7, last_version_update := 9,
    last_update_time := 6, data_freezed := false, reset_counter := 0,
    update_delay := 1/100, player := wPlayer }

/-- C2 witness: concrete freeze at time 5 (version stuck at 7 since time 1),
one frozen iteration with no observable change, and a resume when the
version moves to 9. -/
theorem claim_freeze_resume_witness :
    (wAfterFreeze.data_freezed = true ∧ wAfterFreeze.paused = true ∧
      wAfterFreeze.update_delay = 1/2 ∧
      wAfterFreeze.freezed_version = wActive.last_version_update) ∧
    (wFrozen.data_freezed = true ∧ wFrozen.paused = wFrozen.paused ∧
      wFrozen.update_delay = wFrozen.update_delay ∧
      wFrozen.freezed_version = wFrozen.freezed_version) ∧
    (wResumed.data_freezed = false ∧ wResumed.paused = false ∧
      wResumed.update_delay = 1/100 ∧
      wResumed.freezed_version = wFrozen.freezed_version) :=
  ⟨(claim_freeze_resume wScor7 wTele1 init_tele_indexes 5 5 wActive wAfterFreeze
      (by norm_num [update_tick, tick_rest, update_tele_indexes, sync_player_data,
        set_player_data, sync_tele_index, local_scoring_index, first_player_index,
        pyGet, init_tele_indexes, INVALID_INDEX, List.range_succ, List.range_zero,
        List.zip_cons_cons, List.zip_nil_left, List.zip_nil_right, List.foldl_cons,
        List.foldl_nil, List.getElem?_cons_zero, List.getElem?_cons_succ,
        List.getElem?_nil, wScor7, wTele1, wActive, wAfterFreeze, wPlayer])).1
      rfl rfl (by norm_num [wActive]),
   (claim_freeze_resume wScor7 wTele1 init_tele_indexes 6 6 wFrozen wFrozen
      (by norm_num [update_tick, tick_rest, wScor7, wTele1, wFrozen, wPlayer])).2.1
      rfl rfl,
   (claim_freeze_resume wScor9 wTele1 init_tele_indexes 6 6 wFrozen wResumed
      (by norm_num [update_tick, tick_rest, wScor9, wTele1, wFrozen, wResumed,
        wPlayer])).2.2
      rfl (by norm_num [wScor9, wFrozen])⟩

/-- Empty scoring buffer at version 0 (simulator never started). -/
def wScor0 : ScoringData := ⟨0, 0, []⟩

/-- Empty telemetry buffer at version 0. -/
def wTele0 : TelemetryData := ⟨0, 0, 0, []⟩

/-- Player identity state before any sync succeeded. -/
def wStart : PlayerState := ⟨false, -1, none, none⟩

/-- C3 counterexample: the loop state at entry of `__update` is Frozen
(`data_freezed = True`) with `paused = False`, and an iteration at time 3
with the scoring version still 0 returns exactly that state, so a reachable
state is Frozen but not Paused. -/
theorem claim_paused_when_frozen_counterexample :
    update_tick wScor0 wTele0 init_tele_indexes 3 3 (init_loop_state wStart) =
      some (init_loop_state wStart) ∧
    (init_loop_state wStart).data_freezed = true ∧
    (init_loop_state wStart).paused = false :=
  ⟨by norm_num [update_tick, tick_rest, init_loop_state, wScor0, wTele0],
   rfl, rfl⟩

/-- C3 (amended): `paused` follows this discipline per iteration — an
Active→Frozen staleness transition sets it; while Frozen with the version
still at the frozen snapshot it is preserved (so `Frozen → Paused` holds in
every state reached after a freeze transition, though not at loop entry,
where the state is Frozen with `paused = False`); a successful
`__sync_player_data` clears it and resets the consecutive-failure counter;
the 5th consecutive failure sets it while the loop keeps running. -/
theorem claim_paused_discipline (scor : ScoringData) (tele : TelemetryData)
    (ti : Int → Option Nat) (nowv nowc : ℚ) (s s1 : LoopState)
    (hstep : update_tick scor tele ti nowv nowc s = some s1) :
    (s.data_freezed = false → scor.mVersionUpdateEnd = s.last_version_update →
      nowc - s.last_update_time > 2 → s1.paused = true) ∧
    (s.data_freezed = true → s.paused = true →
      scor.mVersionUpdateEnd = s.freezed_version → s1.paused = true) ∧
    (∀ p, s.data_freezed = false →
      sync_player_data scor tele (update_tele_indexes tele ti) s.player =
        some (true, p) →
      s.last_version_update ≠ scor.mVersionUpdateEnd → ¬ nowc - nowv > 2 →
      s1.paused = false ∧ s1.reset_counter = 0 ∧ s1.player = p) ∧
    (∀ p, s.data_freezed = false →
      sync_player_data scor tele (update_tele_indexes tele ti) s.player =
        some (false, p) →
      s.reset_counter = 4 →
      s.last_version_update ≠ scor.mVersionUpdateEnd → ¬ nowc - nowv > 2 →
      s1.paused = true ∧ s1.reset_counter = 5) := by
  refine ⟨fun hF hv ht => ?_, fun hT hp hv => ?_,
    fun p hF hsync hv ht => ?_, fun p hF hsync hrc hv ht => ?_⟩
  · rw [update_tick] at hstep
    simp only [hF, Bool.false_eq_true, if_false, Option.map_eq_some'] at hstep
    obtain ⟨r, _, hf⟩ := hstep
    rw [← hf]
    split
    · rw [tick_rest_freeze scor nowv nowc s _ _ _ hF hv ht]
    · split <;> rw [tick_rest_freeze scor nowv nowc s _ _ _ hF hv ht]
  · rw [update_tick] at hstep
    simp only [hT, if_true, Option.some.injEq] at hstep
    rw [← hstep, (tick_rest_frozen_stay scor nowv nowc s _ _ _ hT hv).2.1, hp]
  · rw [update_tick] at hstep
    simp only [hF, Bool.false_eq_true, if_false, Option.map_eq_some'] at hstep
    obtain ⟨r, hr, hf⟩ := hstep
    rw [hsync, Option.some.injEq] at hr
    rw [← hr] at hf
    simp only [if_true] at hf
    rw [← hf]
    have h := tick_rest_active_stay scor nowv nowc s false 0 p hF hv ht
    exact ⟨h.1, h.2.1, h.2.2.2⟩
  · rw [update_tick] at hstep
    simp only [hF, Bool.false_eq_true, if_false, Option.map_eq_some'] at hstep
    obtain ⟨r, hr, hf⟩ := hstep
    rw [hsync, Option.some.injEq] at hr
    rw [← hr] at hf
    simp only [Bool.false_eq_true, if_false, hrc] at hf
    norm_num at hf
    rw [← hf]
    have h := tick_rest_active_stay scor nowv nowc s true 5 p hF hv ht
    exact ⟨h.1, h.2.1⟩

/-- Scoring buffer at version 8 with one flagged vehicle. -/
def wScor8 : ScoringData := ⟨0, 8, [⟨0, true⟩]⟩

/-- Scoring buffer at version 8 with no flagged vehicle. -/
def wScorNoP : ScoringData := ⟨0, 8, [⟨0, false⟩]⟩

/-- Active, paused, two consecutive failures so far. -/
def wActiveC : LoopState :=
  { paused := true, freezed_version := 3, last_version_update := 7,
    last_update_time := 1, data_freezed := false, reset_counter := 2,
    update_delay := 1/100, player := wPlayer }

/-- Player state after a successful sync of `wScor8` / `wTele1`. -/
def wSynced : PlayerState := ⟨false, 0, some ⟨0, true⟩, some ⟨0⟩⟩

/-- State after the successful-sync iteration of `wActiveC` at time 5. -/
def wAfterC : LoopState :=
  { paused := false, freezed_version := 3, last_version_update := 8,
    last_update_time := 5, data_freezed := false, reset_counter := 0,
    update_delay := 1/100, player := wSynced }

/-- Active with four consecutive failures. -/
def wActiveD : LoopState :=
  { paused := false, freezed_version := 3, last_version_update := 7,
    last_update_time := 1, data_freezed := false, reset_counter := 4,
    update_delay := 1/100, player := wPlayer }

/-- State after the fifth consecutive failure at time 5. -/
def wAfterD : LoopState :=
  { paused := true, freezed_version := 3, last_version_update := 8,
    last_update_time := 5, data_freezed := false, reset_counter := 5,
    update_delay := 1/100, player := wPlayer }

/-- C3 witness: the freeze transition sets `paused`, a frozen iteration
keeps it, a successful sync clears it and resets the counter, and the
fifth consecutive failure sets it. -/
theorem claim_paused_discipline_witness :
    wAfterFreeze.paused = true ∧
    wFrozen.paused = true ∧
    (wAfterC.paused = false ∧ wAfterC.reset_counter = 0 ∧
      wAfterC.player = wSynced) ∧
    (wAfterD.paused = true ∧ wAfterD.reset_counter = 5) :=
  ⟨(claim_paused_discipline wScor7 wTele1 init_tele_indexes 5 5 wActive
      wAfterFreeze
      (by norm_num [update_tick, tick_rest, update_tele_indexes, sync_player_data,
        set_player_data, sync_tele_index, local_scoring_index, first_player_index,
        pyGet, init_tele_indexes, INVALID_INDEX, List.range_succ, List.range_zero,
        List.zip_cons_cons, List.zip_nil_left, List.zip_nil_right, List.foldl_cons,
        List.foldl_nil, List.getElem?_cons_zero, List.getElem?_cons_succ,
        List.getElem?_nil, wScor7, wTele1, wActive, wAfterFreeze, wPlayer])).1
      rfl rfl (by norm_num [wActive]),
   (claim_paused_discipline wScor7 wTele1 init_tele_indexes 6 6 wFrozen wFrozen
      (by norm_num [update_tick, tick_rest, wScor7, wTele1, wFrozen, wPlayer])).2.1
      rfl rfl rfl,
   (claim_paused_discipline wScor8 wTele1 init_tele_indexes 5 5 wActiveC wAfterC
      (by norm_num [update_tick, tick_rest, update_tele_indexes, sync_player_data,
        set_player_data, sync_tele_index, local_scoring_index, first_player_index,
        pyGet, init_tele_indexes, INVALID_INDEX, List.range_succ, List.range_zero,
        List.zip_cons_cons, List.zip_nil_left, List.zip_nil_right, List.foldl_cons,
        List.foldl_nil, List.getElem?_cons_zero, List.getElem?_cons_succ,
        List.getElem?_nil, wScor8, wTele1, wActiveC, wAfterC, wSynced,
        wPlayer])).2.2.1
      wSynced rfl (by decide) (by decide) (by norm_num),
   (claim_paused_discipline wScorNoP wTele1 init_tele_indexes 5 5 wActiveD
      wAfterD
      (by norm_num [update_tick, tick_rest, update_tele_indexes, sync_player_data,
        set_player_data, sync_tele_index, local_scoring_index, first_player_index,
        pyGet, init_tele_indexes, INVALID_INDEX, List.range_succ, List.range_zero,
        List.zip_cons_cons, List.zip_nil_left, List.zip_nil_right, List.foldl_cons,
        List.foldl_nil, List.getElem?_cons_zero, List.getElem?_cons_succ,
        List.getElem?_nil, wScorNoP, wTele1, wActiveD, wAfterD, wPlayer])).2.2.2
      wPlayer rfl (by decide) rfl (by decide) (by norm_num)⟩
